import Mathlib

/-!
Verification development for the rodin3d-skills repository.

The repository is a client for a remote 3D-model-generation service:
`api_client.py` submits a generation task, polls its status in a bounded
loop and fetches download links; `generate_3d_model.py` drives the client
from the command line and downloads the resulting assets;
`image_utils.py` validates input images.

The shallow embedding below mirrors the Python source.  Network transport
is abstracted as `Except String` values supplied by the environment
(an `.error` models a `requests` exception, an `.ok` a parsed JSON body);
dictionary keys that may be absent become `Option` fields.  The
orchestration `generate_3d_model` is embedded as a fuel-indexed recursion
over the per-attempt status responses, recording a `Trace` of how many
submissions, status polls, sleeps and download-manifest calls occur.
-/

/-- One entry of the `jobs` list in a status response
(`api_client.py`, lines 226-246): a status string and an optional
`error` detail. -/
structure Job where
  status : String
  error : Option String
deriving DecidableEq, Repr

/-- Body of a status response (`check_task_status` result as consumed by
`generate_3d_model`): an optional explicit `error` field and the `jobs`
list (`status_result.get("jobs", [])`, so an absent key is the empty
list). -/
structure StatusResponse where
  error : Option String
  jobs : List Job
deriving DecidableEq, Repr

/-- The `jobs` sub-dictionary of a submission response, holding the
optional `subscription_key` (`api_client.py`, line 215). -/
structure SubmitJobs where
  subscription_key : Option String
deriving DecidableEq, Repr

/-- Body of a submission response (`submit_generation_task` result):
optional explicit `error` field, optional `uuid`, optional `jobs`
sub-dictionary.  `.get` on an absent key yields `none`. -/
structure SubmitResponse where
  error : Option String
  uuid : Option String
  jobs : Option SubmitJobs
deriving DecidableEq, Repr

/-- One entry of the download manifest as consumed by `main`
(`generate_3d_model.py`, lines 163-176): an optional `name` and a `url`. -/
structure FileInfo where
  name : Option String
  url : String
deriving DecidableEq, Repr

/-- Body of a download response (`download_results` result): optional
explicit `error` field and the `list` of downloadable assets. -/
structure DownloadResult where
  error : Option String
  list : List FileInfo
deriving DecidableEq, Repr

/-- The error classes of the orchestration, one per distinct `raise`
site reachable from `generate_3d_model` in `api_client.py`.  The Python
source raises bare `Exception`s whose messages distinguish the classes;
the spec names the classes, so we carry both the class and the message. -/
inductive RunError where
  | submissionError (msg : String)
  | statusError (msg : String)
  | taskFailedError (msg : String)
  | manifestError (msg : String)
  | pollTimeoutError (msg : String)
  | attributeError (msg : String)
deriving DecidableEq, Repr

/-- `true` exactly on the `submissionError` class. -/
def RunError.isSubmission : RunError → Bool
  | .submissionError _ => true
  | _ => false

/-- `true` when an orchestration outcome is a `submissionError`. -/
def isSubmissionError {α : Type} : Except RunError α → Bool
  | .error e => e.isSubmission
  | .ok _ => false

/-- Counters of the observable side effects of one `generate_3d_model`
run: submission calls, status polls, the log of sleep durations
(one entry per `time.sleep(poll_interval)`), and `download_results`
calls. -/
structure Trace where
  submits : Nat
  polls : Nat
  sleepLog : List Nat
  downloads : Nat
deriving DecidableEq, Repr

/-- The error detail the Python `Failed` branch reports
(`api_client.py`, line 246): `job` is the for-loop variable, so after the
status-collection loop it holds the LAST job of the list, and
`job.get("error", "Unknown error")` is that job's detail or the default. -/
def lastJobError (jobs : List Job) : String :=
  match jobs.getLast? with
  | some j => j.error.getD "Unknown error"
  | none => "Unknown error"

/-- Derived aggregate status of a poll, in the branch order of
`api_client.py` lines 241-253: all-`Done` first, then any-`Failed`,
any-`Waiting`, any-`Generating`, and otherwise unrecognized. -/
inductive AggregateStatus where
  | Done
  | Failed
  | Waiting
  | Generating
  | Unknown
deriving DecidableEq, Repr

/-- Aggregation of a poll's job statuses, mirroring the `if`/`elif`
chain of `api_client.py` lines 241-253. -/
def aggregate (jobs : List Job) : AggregateStatus :=
  if jobs.all (fun j => j.status == "Done") then .Done
  else if jobs.any (fun j => j.status == "Failed") then .Failed
  else if jobs.any (fun j => j.status == "Waiting") then .Waiting
  else if jobs.any (fun j => j.status == "Generating") then .Generating
  else .Unknown

/-- Outcome of one iteration body of the polling loop: a fatal error,
the all-`Done` exit to `download_results`, or fall-through to
`time.sleep` and the next attempt. -/
inductive StepOutcome where
  | fatal (e : RunError)
  | finishDone
  | sleepContinue
deriving DecidableEq, Repr

/-- One iteration body of the polling loop (`api_client.py` lines
221-251) applied to the attempt's status response.  A transport failure
is the `Exception("Status check failed: ...")` raised inside
`check_task_status`; then the explicit `error` field, the empty-jobs
guard, the all-`Done` exit, and the any-`Failed` abort, in source
order.  The `Waiting`/`Generating` branches only print, so they fall
through to the sleep like the unrecognized case. -/
def pollStep (resp : Except String StatusResponse) : StepOutcome :=
  match resp with
  | .error e => .fatal (.statusError ("Status check failed: " ++ e))
  | .ok r =>
    match r.error with
    | some e => .fatal (.statusError ("Status check failed: " ++ e))
    | none =>
      if r.jobs.isEmpty then
        .fatal (.statusError "No jobs found in status response")
      else if r.jobs.all (fun j => j.status == "Done") then
        .finishDone
      else if r.jobs.any (fun j => j.status == "Failed") then
        .fatal (.taskFailedError ("Task failed: " ++ lastJobError r.jobs))
      else
        .sleepContinue

/-- The polling loop of `generate_3d_model` (`api_client.py` lines
218-255).  `statusAt k` is the status response of attempt `k` (the
environment); `dl` is the `download_results` response used if the
all-`Done` exit is reached; the fuel is the remaining number of
attempts out of `max_retries`.  Each iteration polls once; the
all-`Done` exit calls `download_results` and returns
`(task_uuid, download_result)`; non-terminal iterations sleep
`poll_interval` and recurse; exhausted fuel is the
`Exception("Task processing timed out")` after the loop. -/
def pollLoop (statusAt : Nat → Except String StatusResponse)
    (dl : Except String DownloadResult) (task_uuid : Option String)
    (poll_interval : Nat) :
    Nat → Nat → Trace → Trace × Except RunError (Option String × DownloadResult)
  | 0, _, tr => (tr, .error (.pollTimeoutError "Task processing timed out"))
  | fuel + 1, attempt, tr =>
    let tr1 : Trace := { tr with polls := tr.polls + 1 }
    match pollStep (statusAt attempt) with
    | .fatal e => (tr1, .error e)
    | .finishDone =>
      let tr2 : Trace := { tr1 with downloads := tr1.downloads + 1 }
      match dl with
      | .error e => (tr2, .error (.manifestError ("Download request failed: " ++ e)))
      | .ok d => (tr2, .ok (task_uuid, d))
    | .sleepContinue =>
      pollLoop statusAt dl task_uuid poll_interval fuel (attempt + 1)
        { tr1 with sleepLog := tr1.sleepLog ++ [poll_interval] }

/-- The orchestration `generate_3d_model` (`api_client.py` lines
162-255).  `submit` is the submission transport outcome (an `.error` is
the `Exception("API request failed: ...")` raised inside
`submit_generation_task`).  On a response with an explicit `error`
field it raises `Task submission failed: ...`; otherwise it reads
`uuid` and `jobs` with `.get`, so a missing `jobs` dictionary crashes
with an `AttributeError` (`None` has no `.get`) while a missing
`subscription_key` inside a present `jobs` is silently `None` and the
loop is entered regardless. -/
def generate_3d_model (submit : Except String SubmitResponse)
    (statusAt : Nat → Except String StatusResponse)
    (dl : Except String DownloadResult) (poll_interval max_retries : Nat) :
    Trace × Except RunError (Option String × DownloadResult) :=
  let tr0 : Trace := { submits := 1, polls := 0, sleepLog := [], downloads := 0 }
  match submit with
  | .error e => (tr0, .error (.submissionError ("API request failed: " ++ e)))
  | .ok r =>
    match r.error with
    | some e => (tr0, .error (.submissionError ("Task submission failed: " ++ e)))
    | none =>
      match r.jobs with
      | none => (tr0, .error (.attributeError "NoneType object has no attribute get"))
      | some _ => pollLoop statusAt dl r.uuid poll_interval max_retries 0 tr0

/-- Characters of a string after its last occurrence of `sep`
(the whole string when `sep` does not occur). -/
def afterLastChar (sep : Char) (cs : List Char) : List Char :=
  (cs.reverse.takeWhile (fun c => c ≠ sep)).reverse

/-- Characters of a string before its first occurrence of `sep`
(the whole string when `sep` does not occur): Python
`s.split(sep)[0]`. -/
def beforeFirstChar (sep : Char) (cs : List Char) : List Char :=
  cs.takeWhile (fun c => c ≠ sep)

/-- Python `os.path.basename`: the part of a path after the last `/`. -/
def basename (s : String) : String :=
  String.mk (afterLastChar (Char.ofNat 47) s.data)

/-- Per-asset outcome of `download_model` (`generate_3d_model.py` lines
184-216): either the file was written to `output_path`, or the failure
was caught and reported for this asset alone. -/
inductive AssetOutcome where
  | downloaded (output_path : String)
  | failed (filename : String) (msg : String)
deriving DecidableEq, Repr

/-- `true` on a successfully written asset. -/
def AssetOutcome.isDownloaded : AssetOutcome → Bool
  | .downloaded _ => true
  | .failed _ _ => false

/-- `true` when the environment fetch of a URL succeeded. -/
def fetchOk (r : Except String Unit) : Bool :=
  match r with
  | .ok _ => true
  | .error _ => false

/-- Local filename derivation of `download_model` (`generate_3d_model.py`
lines 199-200): the explicit `name` when it is truthy (present and
non-empty), else the basename of the URL stripped of its query string. -/
def deriveFilename (fi : FileInfo) : String :=
  match fi.name with
  | some n => if n == "" then basename (String.mk (beforeFirstChar (Char.ofNat 63) fi.url.data)) else n
  | none => basename (String.mk (beforeFirstChar (Char.ofNat 63) fi.url.data))

/-- `download_model` (`generate_3d_model.py` lines 184-216) for one asset.
`fetch url` abstracts the body of the `try` block: the streaming GET,
`raise_for_status` and the chunked write, whose network or filesystem
failure surfaces as `.error msg`.  The failure is caught and reported
(`Failed to download ...`) without propagating. -/
def download_model (fetch : String → Except String Unit) (output_dir : String)
    (fi : FileInfo) : AssetOutcome :=
  let filename := deriveFilename fi
  let output_path := output_dir ++ "/" ++ filename
  match fetch fi.url with
  | .ok _ => .downloaded output_path
  | .error e => .failed filename ("Failed to download " ++ filename ++ ": " ++ e)

/-- The download loop of `main` (`generate_3d_model.py` lines 175-176):
`download_model` is called for every entry of the manifest list in
order. -/
def download_all (fetch : String → Except String Unit) (output_dir : String)
    (files : List FileInfo) : List AssetOutcome :=
  files.map (download_model fetch output_dir)

/-- ASCII lowercase of one character, the fragment of Python
`str.lower()` relevant to file extensions. -/
def lowerChar (c : Char) : Char :=
  if 65 ≤ c.toNat ∧ c.toNat ≤ 90 then Char.ofNat (c.toNat + 32) else c

/-- Python `os.path.splitext(path)[1]`: the extension of the basename,
from its last dot, provided some character strictly before that dot is
not itself a dot (so purely leading dots give no extension). -/
def splitextExt (path : String) : String :=
  let b := afterLastChar (Char.ofNat 47) path.data
  let rev := b.reverse
  let pre := rev.takeWhile (fun c => c ≠ Char.ofNat 46)
  if pre.length = rev.length then ""
  else if (rev.drop (pre.length + 1)).any (fun c => c ≠ Char.ofNat 46) then
    String.mk (Char.ofNat 46 :: pre.reverse)
  else ""

/-- The lowercased extension `api_client`-side validation compares
(`image_utils.py` line 43): `os.path.splitext(image_path)[1].lower()`. -/
def extLower (path : String) : String :=
  String.mk ((splitextExt path).data.map lowerChar)

/-- `MAX_FILE_SIZE` of `ImageUtils` (`image_utils.py` line 15). -/
def MAX_FILE_SIZE : Nat := 16 * 1024 * 1024

/-- The flattened `SUPPORTED_FORMATS` extension list in the order
`valid_extensions` is built (`image_utils.py` lines 8-12, 44-46). -/
def valid_extensions : List String := [".jpg", ".jpeg", ".png", ".webp"]

/-- Result of `validate_image`: `ok` models `return True`, `err` the
raised exception's message. -/
inductive ValidationResult where
  | ok
  | err (msg : String)
deriving DecidableEq, Repr

instance {ε α : Type} [DecidableEq ε] [DecidableEq α] : DecidableEq (Except ε α) :=
  fun x y =>
    match x, y with
    | .ok a, .ok b => decidable_of_iff (a = b) (by simp)
    | .error a, .error b => decidable_of_iff (a = b) (by simp)
    | .ok _, .error _ => isFalse (by simp)
    | .error _, .ok _ => isFalse (by simp)

/-- The abstract view of an image file that `validate_image` consults:
whether the path exists, the byte size, the path (for the extension),
and the PIL decode outcome — `.ok (width, height)` when `Image.open`
succeeds, `.error msg` when it raises. -/
structure ImageFile where
  fileExists : Bool
  size : Nat
  path : String
  decoded : Except String (Nat × Nat)
deriving DecidableEq, Repr

/-- `ImageUtils.validate_image` (`image_utils.py` lines 19-65): existence,
size, extension and resolution checks in source order.  The resolution
checks sit inside a `try` whose `except` re-raises with the
`Failed to validate image: ` prefix, so decode failures and resolution
violations carry that prefix while the earlier checks do not. -/
def validate_image (f : ImageFile) : ValidationResult :=
  if !f.fileExists then .err "Image file does not exist"
  else if f.size > MAX_FILE_SIZE then .err "Image file size exceeds 16MB limit"
  else if !(valid_extensions.contains (extLower f.path)) then
    .err "Unsupported image format. Please use one of: .jpg, .jpeg, .png, .webp"
  else
    match f.decoded with
    | .error e => .err ("Failed to validate image: " ++ e)
    | .ok (w, h) =>
      if w < 512 || h < 512 then
        .err "Failed to validate image: Image resolution is too low. Minimum resolution is 512x512"
      else if w > 4096 || h > 4096 then
        .err "Failed to validate image: Image resolution is too high. Maximum resolution is 4096x4096"
      else .ok

/-- Python truthiness of an optional string (`None` and `""` are falsy). -/
def pyTruthyStr (s : Option String) : Bool :=
  match s with
  | none => false
  | some v => !(v == "")

/-- Python truthiness of an optional list (`None` and `[]` are falsy). -/
def pyTruthyList {α : Type} (l : Option (List α)) : Bool :=
  match l with
  | none => false
  | some v => !v.isEmpty

/-- Python `str(b).lower()` for a boolean. -/
def pyBoolStr (b : Bool) : String :=
  if b then "true" else "false"

/-- A form-data entry under key `k` that is present exactly when `v` is. -/
def optEntry (k : String) (v : Option String) : List (String × String) :=
  match v with
  | some s => [(k, s)]
  | none => []

/-- The `data` dictionary `submit_generation_task` posts (`api_client.py`
lines 60-87), as an ordered key-value list: the seven unconditional
fields, then `prompt`, `seed`, `quality_override`, `bbox_condition`,
`mesh_mode` and `addons`, each included under the source's own
condition — truthiness for `prompt`, `bbox_condition`, `mesh_mode` and
`addons`, an `is not None` comparison for `seed` and
`quality_override`. -/
def submitFormData (tier geometry_file_format material quality : String)
    (use_original_alpha TAPose preview_render : Bool)
    (prompt : Option String) (seed : Option Int) (quality_override : Option Int)
    (bbox_condition : Option (List Int)) (mesh_mode : String)
    (addons : Option (List String)) : List (String × String) :=
  [("tier", tier), ("geometry_file_format", geometry_file_format),
   ("material", material), ("quality", quality),
   ("use_original_alpha", pyBoolStr use_original_alpha),
   ("TAPose", pyBoolStr TAPose),
   ("preview_render", pyBoolStr preview_render)]
  ++ optEntry "prompt" (if pyTruthyStr prompt then some (prompt.getD "") else none)
  ++ optEntry "seed" (seed.map toString)
  ++ optEntry "quality_override" (quality_override.map toString)
  ++ optEntry "bbox_condition"
      (if pyTruthyList bbox_condition then
        some (String.intercalate "," ((bbox_condition.getD []).map toString))
      else none)
  ++ optEntry "mesh_mode" (if mesh_mode == "" then none else some mesh_mode)
  ++ optEntry "addons"
      (if pyTruthyList addons then some (String.intercalate "," (addons.getD [])) else none)

/-- `true` when the form data contains an entry under key `k`. -/
def hasKey (k : String) (l : List (String × String)) : Bool :=
  l.any (fun p => p.1 == k)

/-- `true` exactly when the submission transport failed or the submission
response carries an explicit error field — the two conditions under
which the source raises its submission failure. -/
def submitErrorSignal (submit : Except String SubmitResponse) : Bool :=
  match submit with
  | .error _ => true
  | .ok r => r.error.isSome

lemma all_done_false_of_any_failed (jobs : List Job)
    (h : jobs.any (fun j => j.status == "Failed") = true) :
    jobs.all (fun j => j.status == "Done") = false := by
  rcases List.any_eq_true.mp h with ⟨j, hj, hf⟩
  cases hall : jobs.all (fun j => j.status == "Done") with
  | false => rfl
  | true =>
    have hd := List.all_eq_true.mp hall j hj
    rw [beq_iff_eq] at hd hf
    rw [hd] at hf
    exact absurd hf (by decide)

lemma isEmpty_false_of_any (jobs : List Job) (p : Job → Bool)
    (h : jobs.any p = true) : jobs.isEmpty = false := by
  cases jobs with
  | nil => simp at h
  | cons a l => rfl

lemma isEmpty_false_of_all_false (jobs : List Job) (p : Job → Bool)
    (h : jobs.all p = false) : jobs.isEmpty = false := by
  cases jobs with
  | nil => simp at h
  | cons a l => rfl

lemma pollStep_failed (jobs : List Job)
    (h : jobs.any (fun j => j.status == "Failed") = true) :
    pollStep (.ok { error := none, jobs := jobs })
      = .fatal (.taskFailedError ("Task failed: " ++ lastJobError jobs)) := by
  have hd := all_done_false_of_any_failed jobs h
  have he := isEmpty_false_of_any jobs _ h
  simp [pollStep, he, hd, h]

lemma pollLoop_timeout (statusAt : Nat → Except String StatusResponse)
    (dl : Except String DownloadResult) (uuid : Option String) (pi : Nat)
    (h : ∀ k, pollStep (statusAt k) = .sleepContinue) :
    ∀ (fuel attempt : Nat) (tr : Trace), pollLoop statusAt dl uuid pi fuel attempt tr
      = ({ tr with
            polls := tr.polls + fuel
            sleepLog := tr.sleepLog ++ List.replicate fuel pi },
         .error (.pollTimeoutError "Task processing timed out")) := by
  intro fuel
  induction fuel with
  | zero => intro attempt tr; simp [pollLoop]
  | succ n ih =>
    intro attempt tr
    simp only [pollLoop, h attempt]
    rw [ih (attempt + 1)]
    simp [List.replicate_succ]
    omega

lemma pollLoop_fatal_first (statusAt : Nat → Except String StatusResponse)
    (dl : Except String DownloadResult) (uuid : Option String) (pi : Nat)
    (e : RunError) (M attempt : Nat) (tr : Trace)
    (h : pollStep (statusAt attempt) = .fatal e) :
    pollLoop statusAt dl uuid pi (M + 1) attempt tr
      = ({ tr with polls := tr.polls + 1 }, .error e) := by
  simp [pollLoop, h]

lemma pollLoop_done_first (statusAt : Nat → Except String StatusResponse)
    (d : DownloadResult) (uuid : Option String) (pi : Nat)
    (M attempt : Nat) (tr : Trace)
    (h : pollStep (statusAt attempt) = .finishDone) :
    pollLoop statusAt (.ok d) uuid pi (M + 1) attempt tr
      = ({ tr with polls := tr.polls + 1, downloads := tr.downloads + 1 },
         .ok (uuid, d)) := by
  simp [pollLoop, h]

lemma generate_ok_unfold (r : SubmitResponse) (sj : SubmitJobs)
    (statusAt : Nat → Except String StatusResponse)
    (dl : Except String DownloadResult) (pi N : Nat)
    (hne : r.error = none) (hj : r.jobs = some sj) :
    generate_3d_model (.ok r) statusAt dl pi N
      = pollLoop statusAt dl r.uuid pi N 0
          { submits := 1, polls := 0, sleepLog := [], downloads := 0 } := by
  simp [generate_3d_model, hne, hj]

lemma all_done_of_forall (jobs : List Job) (h : ∀ jb ∈ jobs, jb.status = "Done") :
    jobs.all (fun j => j.status == "Done") = true := by
  rw [List.all_eq_true]
  intro j hj
  rw [beq_iff_eq]
  exact h j hj

lemma isEmpty_false_of_ne_nil (jobs : List Job) (h : jobs ≠ []) :
    jobs.isEmpty = false := by
  cases jobs with
  | nil => exact absurd rfl h
  | cons a l => rfl

lemma pollStep_all_done (jobs : List Job) (hne : jobs ≠ [])
    (h : ∀ jb ∈ jobs, jb.status = "Done") :
    pollStep (.ok { error := none, jobs := jobs }) = .finishDone := by
  simp [pollStep, isEmpty_false_of_ne_nil jobs hne, all_done_of_forall jobs h]

lemma pollLoop_downloads_const (statusAt : Nat → Except String StatusResponse)
    (dl : Except String DownloadResult) (uuid : Option String) (pi : Nat)
    (h : ∀ k, pollStep (statusAt k) ≠ .finishDone) :
    ∀ (fuel attempt : Nat) (tr : Trace),
      (pollLoop statusAt dl uuid pi fuel attempt tr).1.downloads = tr.downloads := by
  intro fuel
  induction fuel with
  | zero => intro attempt tr; rfl
  | succ n ih =>
    intro attempt tr
    cases hs : pollStep (statusAt attempt) with
    | fatal e => simp [pollLoop, hs]
    | finishDone => exact absurd hs (h attempt)
    | sleepContinue =>
      simp only [pollLoop, hs]
      exact ih (attempt + 1) _

lemma pollStep_fatal_not_submission (resp : Except String StatusResponse)
    (e : RunError) (h : pollStep resp = .fatal e) : e.isSubmission = false := by
  cases resp with
  | error m => simp [pollStep] at h; subst h; rfl
  | ok r =>
    cases hre : r.error with
    | some m => simp [pollStep, hre] at h; subst h; rfl
    | none =>
      simp only [pollStep, hre] at h
      split_ifs at h with h1 h2 h3 <;> simp at h <;> subst h <;> rfl

lemma pollLoop_not_submission (statusAt : Nat → Except String StatusResponse)
    (dl : Except String DownloadResult) (uuid : Option String) (pi : Nat) :
    ∀ (fuel attempt : Nat) (tr : Trace),
      isSubmissionError (pollLoop statusAt dl uuid pi fuel attempt tr).2 = false := by
  intro fuel
  induction fuel with
  | zero => intro attempt tr; rfl
  | succ n ih =>
    intro attempt tr
    cases hs : pollStep (statusAt attempt) with
    | fatal e =>
      simp only [pollLoop, hs]
      simpa [isSubmissionError] using pollStep_fatal_not_submission (statusAt attempt) e hs
    | finishDone =>
      simp only [pollLoop, hs]
      cases dl with
      | error e => rfl
      | ok d => rfl
    | sleepContinue =>
      simp only [pollLoop, hs]
      exact ih (attempt + 1) _

lemma pollLoop_submits_const (statusAt : Nat → Except String StatusResponse)
    (dl : Except String DownloadResult) (uuid : Option String) (pi : Nat) :
    ∀ (fuel attempt : Nat) (tr : Trace),
      (pollLoop statusAt dl uuid pi fuel attempt tr).1.submits = tr.submits := by
  intro fuel
  induction fuel with
  | zero => intro attempt tr; rfl
  | succ n ih =>
    intro attempt tr
    cases hs : pollStep (statusAt attempt) with
    | fatal e => simp [pollLoop, hs]
    | finishDone =>
      simp only [pollLoop, hs]
      cases dl with
      | error e => rfl
      | ok d => rfl
    | sleepContinue =>
      simp only [pollLoop, hs]
      exact ih (attempt + 1) _

lemma download_model_ok (fetch : String → Except String Unit) (output_dir : String)
    (fi : FileInfo) :
    (download_model fetch output_dir fi).isDownloaded = fetchOk (fetch fi.url) := by
  cases hf : fetch fi.url with
  | ok u => simp [download_model, hf, AssetOutcome.isDownloaded, fetchOk]
  | error e => simp [download_model, hf, AssetOutcome.isDownloaded, fetchOk]

lemma hasKey_append (k : String) (a b : List (String × String)) :
    hasKey k (a ++ b) = (hasKey k a || hasKey k b) := by
  simp [hasKey, List.any_append]

lemma hasKey_cons (k k2 v : String) (rest : List (String × String)) :
    hasKey k ((k2, v) :: rest) = ((k2 == k) || hasKey k rest) := by
  simp [hasKey]

lemma hasKey_optEntry (k k2 : String) (v : Option String) :
    hasKey k (optEntry k2 v) = ((k2 == k) && v.isSome) := by
  cases v with
  | none => simp [optEntry, hasKey]
  | some s => simp [optEntry, hasKey]

lemma decide_eq_beq (a b : String) : decide (a = b) = (a == b) := by
  by_cases h : a = b <;> simp [h]

lemma isSome_ite_some {c : Prop} [Decidable c] (s : String) :
    (if c then some s else none).isSome = decide c := by
  split_ifs with hc <;> simp [hc]

lemma isSome_ite_none {c : Prop} [Decidable c] (s : String) :
    (if c then none else some s).isSome = !(decide c) := by
  split_ifs with hc <;> simp [hc]

/-- Claim C1 (amended): if any job of a poll reports Failed, the aggregate
status is Failed regardless of the other entries, the run fails
immediately with a TaskFailedError (one poll, no sleep, no
download-manifest call, even when other jobs are Done), and the error
carries the error detail of the job listed last in the status response if
present, else the generic message. -/
theorem c1_failed_aborts (jobs : List Job)
    (h : jobs.any (fun j => j.status == "Failed") = true) :
    aggregate jobs = .Failed
    ∧ pollStep (.ok { error := none, jobs := jobs })
        = .fatal (.taskFailedError ("Task failed: " ++ lastJobError jobs))
    ∧ ∀ (r : SubmitResponse) (sj : SubmitJobs)
        (statusAt : Nat → Except String StatusResponse)
        (dl : Except String DownloadResult) (pi N : Nat),
        r.error = none → r.jobs = some sj →
        statusAt 0 = .ok { error := none, jobs := jobs } → 1 ≤ N →
        generate_3d_model (.ok r) statusAt dl pi N
          = ({ submits := 1, polls := 1, sleepLog := [], downloads := 0 },
             .error (.taskFailedError ("Task failed: " ++ lastJobError jobs))) := by
  have hd := all_done_false_of_any_failed jobs h
  refine ⟨by simp [aggregate, hd, h], pollStep_failed jobs h, ?_⟩
  intro r sj statusAt dl pi N hne hj hst hN
  obtain ⟨M, rfl⟩ : ∃ M, N = M + 1 := ⟨N - 1, by omega⟩
  rw [generate_ok_unfold r sj statusAt dl pi (M + 1) hne hj]
  rw [pollLoop_fatal_first statusAt dl r.uuid pi _ M 0 _ (by rw [hst]; exact pollStep_failed jobs h)]

/-- Claim C1 witness: a concrete poll with a Failed entry next to a Done
entry aborts the run at the first poll with a TaskFailedError. -/
theorem c1_failed_aborts_witness :
    generate_3d_model (.ok ⟨none, some "t", some ⟨some "k"⟩⟩)
      (fun _ => .ok { error := none
                      jobs := [⟨"Done", none⟩, ⟨"Failed", some "boom"⟩] })
      (.ok ⟨none, []⟩) 10 5
    = ({ submits := 1, polls := 1, sleepLog := [], downloads := 0 },
       .error (.taskFailedError ("Task failed: "
         ++ lastJobError [⟨"Done", none⟩, ⟨"Failed", some "boom"⟩]))) :=
  (c1_failed_aborts [⟨"Done", none⟩, ⟨"Failed", some "boom"⟩] (by decide)).2.2
    ⟨none, some "t", some ⟨some "k"⟩⟩ ⟨some "k"⟩ _ _ 10 5 rfl rfl rfl (by decide)

/-- Claim C1 counterexample: with a Failed job first (error detail
"boom") and a Generating job last, the raised message is the generic one,
not the failing job's detail, because the source reads the loop
variable's last value. -/
theorem c1_failed_detail_counterexample :
    (generate_3d_model (.ok ⟨none, some "t", some ⟨some "k"⟩⟩)
        (fun _ => .ok { error := none
                        jobs := [⟨"Failed", some "boom"⟩, ⟨"Generating", none⟩] })
        (.ok ⟨none, []⟩) 10 5).2
      = .error (.taskFailedError "Task failed: Unknown error")
    ∧ ("Task failed: Unknown error" == "Task failed: boom") = false := by
  exact ⟨rfl, by decide⟩

/-- Claim C3: with a submission that succeeds and a status source that is
non-terminal at every attempt (for example always Generating), the run
performs exactly N polls, sleeps the constant poll interval after each,
never calls the download endpoint, and fails with the poll-timeout
error. -/
theorem c3_poll_timeout (r : SubmitResponse) (sj : SubmitJobs)
    (statusAt : Nat → Except String StatusResponse)
    (dl : Except String DownloadResult) (pi N : Nat)
    (hne : r.error = none) (hj : r.jobs = some sj)
    (hst : ∀ k, statusAt k
      = .ok { error := none, jobs := [{ status := "Generating", error := none }] }) :
    generate_3d_model (.ok r) statusAt dl pi N
      = ({ submits := 1, polls := N, sleepLog := List.replicate N pi, downloads := 0 },
         .error (.pollTimeoutError "Task processing timed out")) := by
  have hstep : ∀ k, pollStep (statusAt k) = .sleepContinue := by
    intro k; rw [hst k]; rfl
  rw [generate_ok_unfold r sj statusAt dl pi N hne hj]
  rw [pollLoop_timeout statusAt dl r.uuid pi hstep N 0]
  simp

/-- Claim C3 witness: three attempts of an always-Generating source give
exactly three polls, three constant sleeps, no download call and the
timeout error. -/
theorem c3_poll_timeout_witness :
    generate_3d_model (.ok ⟨none, some "t", some ⟨some "k"⟩⟩)
      (fun _ => .ok { error := none, jobs := [{ status := "Generating", error := none }] })
      (.ok ⟨none, []⟩) 10 3
    = ({ submits := 1, polls := 3, sleepLog := List.replicate 3 10, downloads := 0 },
       .error (.pollTimeoutError "Task processing timed out")) :=
  c3_poll_timeout ⟨none, some "t", some ⟨some "k"⟩⟩ ⟨some "k"⟩ _ _ 10 3 rfl rfl
    (fun _ => rfl)

/-- Claim C6: a status response with no transport failure and no explicit
error field but zero jobs makes the poll fail with the empty-result
StatusError, stopping the run at that poll instead of retrying. -/
theorem c6_empty_jobs (r : SubmitResponse) (sj : SubmitJobs)
    (statusAt : Nat → Except String StatusResponse)
    (dl : Except String DownloadResult) (pi N : Nat)
    (hne : r.error = none) (hj : r.jobs = some sj)
    (hst : statusAt 0 = .ok { error := none, jobs := [] }) (hN : 1 ≤ N) :
    pollStep (.ok { error := none, jobs := [] })
      = .fatal (.statusError "No jobs found in status response")
    ∧ generate_3d_model (.ok r) statusAt dl pi N
        = ({ submits := 1, polls := 1, sleepLog := [], downloads := 0 },
           .error (.statusError "No jobs found in status response")) := by
  refine ⟨rfl, ?_⟩
  obtain ⟨M, rfl⟩ : ∃ M, N = M + 1 := ⟨N - 1, by omega⟩
  rw [generate_ok_unfold r sj statusAt dl pi (M + 1) hne hj]
  rw [pollLoop_fatal_first statusAt dl r.uuid pi _ M 0 _ (by rw [hst]; rfl)]

/-- Claim C6 witness: a concrete empty-jobs status response stops the run
at the first poll with the empty-result StatusError. -/
theorem c6_empty_jobs_witness :
    generate_3d_model (.ok ⟨none, some "t", some ⟨some "k"⟩⟩)
      (fun _ => .ok { error := none, jobs := [] }) (.ok ⟨none, []⟩) 10 4
    = ({ submits := 1, polls := 1, sleepLog := [], downloads := 0 },
       .error (.statusError "No jobs found in status response")) :=
  (c6_empty_jobs ⟨none, some "t", some ⟨some "k"⟩⟩ ⟨some "k"⟩ _ _ 10 4 rfl rfl rfl
    (by decide)).2

/-- Claim C4: a non-empty poll whose every job is Done yields aggregate
Done, stops polling at that attempt and calls the download endpoint
exactly once, returning the task identifier with the download manifest;
and a run in which no poll is all-Done never calls the download
endpoint. -/
theorem c4_all_done_downloads :
    (∀ (r : SubmitResponse) (sj : SubmitJobs)
        (statusAt : Nat → Except String StatusResponse) (jobs : List Job)
        (d : DownloadResult) (pi N : Nat),
        r.error = none → r.jobs = some sj →
        statusAt 0 = .ok { error := none, jobs := jobs } →
        jobs ≠ [] → (∀ jb ∈ jobs, jb.status = "Done") → 1 ≤ N →
        aggregate jobs = .Done
        ∧ generate_3d_model (.ok r) statusAt (.ok d) pi N
            = ({ submits := 1, polls := 1, sleepLog := [], downloads := 1 },
               .ok (r.uuid, d)))
    ∧ (∀ (submit : Except String SubmitResponse)
        (statusAt : Nat → Except String StatusResponse)
        (dl : Except String DownloadResult) (pi N : Nat),
        (∀ k, pollStep (statusAt k) ≠ .finishDone) →
        (generate_3d_model submit statusAt dl pi N).1.downloads = 0) := by
  constructor
  · intro r sj statusAt jobs d pi N hne hj hst hnil hdone hN
    refine ⟨by simp [aggregate, all_done_of_forall jobs hdone], ?_⟩
    obtain ⟨M, rfl⟩ : ∃ M, N = M + 1 := ⟨N - 1, by omega⟩
    rw [generate_ok_unfold r sj statusAt (.ok d) pi (M + 1) hne hj]
    rw [pollLoop_done_first statusAt d r.uuid pi M 0 _
      (by rw [hst]; exact pollStep_all_done jobs hnil hdone)]
  · intro submit statusAt dl pi N h
    cases submit with
    | error e => rfl
    | ok r =>
      cases hre : r.error with
      | some e => simp [generate_3d_model, hre]
      | none =>
        cases hj : r.jobs with
        | none => simp [generate_3d_model, hre, hj]
        | some sj =>
          rw [generate_ok_unfold r sj statusAt dl pi N hre hj]
          exact pollLoop_downloads_const statusAt dl r.uuid pi h N 0 _

/-- Claim C4 witness: a single all-Done poll returns the task identifier
and manifest after exactly one poll and one download call. -/
theorem c4_all_done_downloads_witness :
    generate_3d_model (.ok ⟨none, some "t", some ⟨some "k"⟩⟩)
      (fun _ => .ok { error := none, jobs := [⟨"Done", none⟩, ⟨"Done", none⟩] })
      (.ok ⟨none, [⟨some "a.glb", "u1"⟩]⟩) 10 3
    = ({ submits := 1, polls := 1, sleepLog := [], downloads := 1 },
       .ok (some "t", ⟨none, [⟨some "a.glb", "u1"⟩]⟩)) :=
  ((c4_all_done_downloads.1 ⟨none, some "t", some ⟨some "k"⟩⟩ ⟨some "k"⟩ _
      [⟨"Done", none⟩, ⟨"Done", none⟩] ⟨none, [⟨some "a.glb", "u1"⟩]⟩ 10 3
      rfl rfl rfl (by decide) (by decide) (by decide)).2)

/-- Claim C5: a poll with no Failed entry and not all entries Done is
non-terminal: any Waiting gives aggregate Waiting (Waiting takes priority
over Generating), else any Generating gives Generating, else the
statuses are outside the recognized enumeration and the aggregate is
Unknown; in each case the iteration falls through to the sleep and the
next attempt. -/
theorem c5_nonterminal (jobs : List Job)
    (hf : jobs.any (fun j => j.status == "Failed") = false)
    (hd : jobs.all (fun j => j.status == "Done") = false) :
    (jobs.any (fun j => j.status == "Waiting") = true → aggregate jobs = .Waiting)
    ∧ (jobs.any (fun j => j.status == "Waiting") = false →
        jobs.any (fun j => j.status == "Generating") = true →
        aggregate jobs = .Generating)
    ∧ (jobs.any (fun j => j.status == "Waiting") = false →
        jobs.any (fun j => j.status == "Generating") = false →
        aggregate jobs = .Unknown)
    ∧ pollStep (.ok { error := none, jobs := jobs }) = .sleepContinue := by
  have he := isEmpty_false_of_all_false jobs _ hd
  refine ⟨?_, ?_, ?_, by simp [pollStep, he, hd, hf]⟩
  · intro hw; simp [aggregate, hd, hf, hw]
  · intro hw hg; simp [aggregate, hd, hf, hw, hg]
  · intro hw hg; simp [aggregate, hd, hf, hw, hg]

/-- Claim C5 witness: a Waiting plus Generating poll aggregates to
Waiting and falls through to the next attempt. -/
theorem c5_nonterminal_witness :
    aggregate [⟨"Waiting", none⟩, ⟨"Generating", none⟩] = .Waiting
    ∧ pollStep (.ok { error := none, jobs := [⟨"Waiting", none⟩, ⟨"Generating", none⟩] })
        = .sleepContinue :=
  ⟨(c5_nonterminal [⟨"Waiting", none⟩, ⟨"Generating", none⟩] (by decide) (by decide)).1
      (by decide),
   (c5_nonterminal [⟨"Waiting", none⟩, ⟨"Generating", none⟩] (by decide) (by decide)).2.2.2⟩

/-- Claim C7: a run raises a SubmissionError exactly when the submission
response carries an explicit error field or the submission transport
fails; the service error is embedded verbatim (behind the fixed phase
prefix) when available, else the transport error is; and every run makes
exactly one submission call, so a failed submission is never retried. -/
theorem c7_submission_error_iff
    (submit : Except String SubmitResponse)
    (statusAt : Nat → Except String StatusResponse)
    (dl : Except String DownloadResult) (pi N : Nat) :
    isSubmissionError (generate_3d_model submit statusAt dl pi N).2
      = submitErrorSignal submit
    ∧ (∀ e, submit = .error e →
        (generate_3d_model submit statusAt dl pi N).2
          = .error (.submissionError ("API request failed: " ++ e)))
    ∧ (∀ r e, submit = .ok r → r.error = some e →
        (generate_3d_model submit statusAt dl pi N).2
          = .error (.submissionError ("Task submission failed: " ++ e)))
    ∧ (generate_3d_model submit statusAt dl pi N).1.submits = 1 := by
  refine ⟨?_, ?_, ?_, ?_⟩
  · cases submit with
    | error e => rfl
    | ok r =>
      cases hre : r.error with
      | some e => simp [generate_3d_model, hre, submitErrorSignal, isSubmissionError,
          RunError.isSubmission]
      | none =>
        cases hj : r.jobs with
        | none => simp [generate_3d_model, hre, hj, submitErrorSignal, isSubmissionError,
            RunError.isSubmission]
        | some sj =>
          rw [generate_ok_unfold r sj statusAt dl pi N hre hj]
          simp [submitErrorSignal, hre]
          exact pollLoop_not_submission statusAt dl r.uuid pi N 0 _
  · intro e he
    subst he
    rfl
  · intro r e hr hre
    subst hr
    simp [generate_3d_model, hre]
  · cases submit with
    | error e => rfl
    | ok r =>
      cases hre : r.error with
      | some e => simp [generate_3d_model, hre]
      | none =>
        cases hj : r.jobs with
        | none => simp [generate_3d_model, hre, hj]
        | some sj =>
          rw [generate_ok_unfold r sj statusAt dl pi N hre hj]
          exact pollLoop_submits_const statusAt dl r.uuid pi N 0 _

/-- Claim C7 witness: a concrete transport failure and a concrete
service error field both surface as a SubmissionError with the source
message embedded, while the submission count stays one. -/
theorem c7_submission_error_iff_witness :
    (generate_3d_model (.error "connection timed out")
        (fun _ => .ok ⟨none, []⟩) (.ok ⟨none, []⟩) 10 3).2
      = .error (.submissionError ("API request failed: " ++ "connection timed out"))
    ∧ (generate_3d_model (.ok ⟨some "quota exceeded", none, none⟩)
        (fun _ => .ok ⟨none, []⟩) (.ok ⟨none, []⟩) 10 3).2
      = .error (.submissionError ("Task submission failed: " ++ "quota exceeded"))
    ∧ (generate_3d_model (.error "connection timed out")
        (fun _ => .ok ⟨none, []⟩) (.ok ⟨none, []⟩) 10 3).1.submits = 1 :=
  ⟨(c7_submission_error_iff (.error "connection timed out") _ _ 10 3).2.1
      "connection timed out" rfl,
   (c7_submission_error_iff (.ok ⟨some "quota exceeded", none, none⟩) _ _ 10 3).2.2.1
      ⟨some "quota exceeded", none, none⟩ "quota exceeded" rfl rfl,
   (c7_submission_error_iff (.error "connection timed out") _ _ 10 3).2.2.2⟩

/-- Claim C2 evaluation: a submission response with no error field whose
jobs dictionary lacks the subscription key is NOT rejected with a
SubmissionError — the source reads the key as None and enters the
polling loop anyway (two polls here before timing out). -/
theorem c2_missing_key_tolerated :
    generate_3d_model
      (.ok { error := none, uuid := some "t-1", jobs := some { subscription_key := none } })
      (fun _ => .ok { error := none, jobs := [{ status := "Generating", error := none }] })
      (.ok ⟨none, []⟩) 10 2
    = ({ submits := 1, polls := 2, sleepLog := [10, 10], downloads := 0 },
       .error (.pollTimeoutError "Task processing timed out"))
    ∧ isSubmissionError (generate_3d_model
        (.ok { error := none, uuid := some "t-1", jobs := some { subscription_key := none } })
        (fun _ => .ok { error := none, jobs := [{ status := "Generating", error := none }] })
        (.ok ⟨none, []⟩) 10 2).2 = false :=
  ⟨rfl, rfl⟩

/-- Claim C8: the download loop processes every manifest entry
independently: successes and per-asset failures are counted one-to-one
against the per-URL fetch outcomes, a failing asset never aborting the
rest; concretely, a three-entry manifest with one unreachable URL yields
two written files and exactly one per-asset failure report. -/
theorem c8_download_per_asset :
    (∀ (fetch : String → Except String Unit) (output_dir : String)
        (files : List FileInfo),
      (download_all fetch output_dir files).length = files.length
      ∧ (download_all fetch output_dir files).countP AssetOutcome.isDownloaded
          = files.countP (fun fi => fetchOk (fetch fi.url))
      ∧ (download_all fetch output_dir files).countP (fun o => !o.isDownloaded)
          = files.countP (fun fi => !fetchOk (fetch fi.url)))
    ∧ download_all (fun u => if u == "u2" then .error "connection refused" else .ok ())
        "out" [⟨some "a.glb", "u1"⟩, ⟨some "b.glb", "u2"⟩, ⟨some "c.glb", "u3"⟩]
      = [.downloaded "out/a.glb",
         .failed "b.glb" ("Failed to download b.glb" ++ ": connection refused"),
         .downloaded "out/c.glb"]
    ∧ (download_all (fun u => if u == "u2" then .error "connection refused" else .ok ())
        "out" [⟨some "a.glb", "u1"⟩, ⟨some "b.glb", "u2"⟩, ⟨some "c.glb", "u3"⟩]).countP
          AssetOutcome.isDownloaded = 2
    ∧ (download_all (fun u => if u == "u2" then .error "connection refused" else .ok ())
        "out" [⟨some "a.glb", "u1"⟩, ⟨some "b.glb", "u2"⟩, ⟨some "c.glb", "u3"⟩]).countP
          (fun o => !o.isDownloaded) = 1 := by
  refine ⟨?_, by decide, by decide, by decide⟩
  intro fetch output_dir files
  refine ⟨by simp [download_all], ?_, ?_⟩
  · rw [download_all, List.countP_map]
    apply List.countP_congr
    intro fi hfi
    simp [Function.comp, download_model_ok fetch output_dir fi]
  · rw [download_all, List.countP_map]
    apply List.countP_congr
    intro fi hfi
    simp [Function.comp, download_model_ok fetch output_dir fi]

/-- Claim C9: for a decodable image, validation accepts exactly when the
file exists, its size is at most 16 MiB, its lowercased extension is one
of .jpg/.jpeg/.png/.webp and its resolution lies within 512x512 to
4096x4096 inclusive; concretely a small 600x600 .jpg passes, 400x400
fails with the resolution-too-low error, a 5000x5000 .png fails with the
resolution-too-high error, and a .bmp fails with the format error. -/
theorem c9_validate_image :
    (∀ (f : ImageFile) (w h : Nat), f.decoded = .ok (w, h) →
      (validate_image f = .ok ↔
        (f.fileExists = true ∧ f.size ≤ 16 * 1024 * 1024
         ∧ valid_extensions.contains (extLower f.path) = true
         ∧ 512 ≤ w ∧ 512 ≤ h ∧ w ≤ 4096 ∧ h ≤ 4096)))
    ∧ validate_image ⟨true, 1000, "photo.jpg", .ok (600, 600)⟩ = .ok
    ∧ validate_image ⟨true, 1000, "photo.jpg", .ok (400, 400)⟩
        = .err "Failed to validate image: Image resolution is too low. Minimum resolution is 512x512"
    ∧ validate_image ⟨true, 1000, "photo.png", .ok (5000, 5000)⟩
        = .err "Failed to validate image: Image resolution is too high. Maximum resolution is 4096x4096"
    ∧ validate_image ⟨true, 1000, "photo.bmp", .ok (600, 600)⟩
        = .err "Unsupported image format. Please use one of: .jpg, .jpeg, .png, .webp" := by
  refine ⟨?_, by decide, by decide, by decide, by decide⟩
  intro f w h hdec
  simp only [validate_image, hdec, MAX_FILE_SIZE]
  split_ifs with h1 h2 h3 h4 h5 <;>
    constructor <;>
    intro hx <;>
    simp_all <;>
    omega

/-- Claim C9 witness: the acceptance characterization instantiated at the
concrete 600x600 small .jpg file. -/
theorem c9_validate_image_witness :
    validate_image ⟨true, 1000, "photo.jpg", .ok (600, 600)⟩ = .ok :=
  (c9_validate_image.1 ⟨true, 1000, "photo.jpg", .ok (600, 600)⟩ 600 600 rfl).mpr
    (by decide)

/-- Claim C10: in the submitted form payload, the numeric options seed
and quality_override are keyed on an is-not-None comparison, so a zero
value is transmitted as the string 0; whereas prompt, bbox_condition,
mesh_mode and addons are keyed on Python truthiness, so an empty prompt,
an empty bounding-box list, an empty mesh-mode string or an empty addon
list is omitted from the payload. -/
theorem c10_payload_presence
    (tier geometry_file_format material quality : String)
    (use_original_alpha TAPose preview_render : Bool)
    (prompt : Option String) (seed quality_override : Option Int)
    (bbox_condition : Option (List Int)) (mesh_mode : String)
    (addons : Option (List String)) :
    hasKey "seed" (submitFormData tier geometry_file_format material quality
        use_original_alpha TAPose preview_render prompt seed quality_override
        bbox_condition mesh_mode addons) = seed.isSome
    ∧ hasKey "quality_override" (submitFormData tier geometry_file_format material quality
        use_original_alpha TAPose preview_render prompt seed quality_override
        bbox_condition mesh_mode addons) = quality_override.isSome
    ∧ hasKey "prompt" (submitFormData tier geometry_file_format material quality
        use_original_alpha TAPose preview_render prompt seed quality_override
        bbox_condition mesh_mode addons) = pyTruthyStr prompt
    ∧ hasKey "bbox_condition" (submitFormData tier geometry_file_format material quality
        use_original_alpha TAPose preview_render prompt seed quality_override
        bbox_condition mesh_mode addons) = pyTruthyList bbox_condition
    ∧ hasKey "mesh_mode" (submitFormData tier geometry_file_format material quality
        use_original_alpha TAPose preview_render prompt seed quality_override
        bbox_condition mesh_mode addons) = !(mesh_mode == "")
    ∧ hasKey "addons" (submitFormData tier geometry_file_format material quality
        use_original_alpha TAPose preview_render prompt seed quality_override
        bbox_condition mesh_mode addons) = pyTruthyList addons
    ∧ ("seed", "0") ∈ submitFormData tier geometry_file_format material quality
        use_original_alpha TAPose preview_render prompt (some 0) (some 0)
        bbox_condition mesh_mode addons
    ∧ ("quality_override", "0") ∈ submitFormData tier geometry_file_format material
        quality use_original_alpha TAPose preview_render prompt (some 0) (some 0)
        bbox_condition mesh_mode addons := by
  refine ⟨?_, ?_, ?_, ?_, ?_, ?_, ?_, ?_⟩
  · simp [submitFormData, hasKey_cons, hasKey_append, hasKey_optEntry, isSome_ite_some,
      isSome_ite_none, Option.isSome_map, decide_eq_beq]
  · simp [submitFormData, hasKey_cons, hasKey_append, hasKey_optEntry, isSome_ite_some,
      isSome_ite_none, Option.isSome_map, decide_eq_beq]
  · simp [submitFormData, hasKey_cons, hasKey_append, hasKey_optEntry, isSome_ite_some,
      isSome_ite_none, Option.isSome_map, decide_eq_beq]
  · simp [submitFormData, hasKey_cons, hasKey_append, hasKey_optEntry, isSome_ite_some,
      isSome_ite_none, Option.isSome_map, decide_eq_beq]
  · simp [submitFormData, hasKey_cons, hasKey_append, hasKey_optEntry, isSome_ite_some,
      isSome_ite_none, Option.isSome_map, decide_eq_beq]
  · simp [submitFormData, hasKey_cons, hasKey_append, hasKey_optEntry, isSome_ite_some,
      isSome_ite_none, Option.isSome_map, decide_eq_beq]
  · simp [submitFormData, optEntry, List.mem_append]
    exact Or.inr (Or.inl (by decide))
  · simp [submitFormData, optEntry, List.mem_append]
    exact Or.inr (Or.inl (by decide))
